import Mathlib

/-!
Verification of the AICAP Risk Terminal audit engine (`src/app.py`).

The audit engine `run_audit` is a pure function from a declared system
record to a verdict (status, score, findings, timestamp).  We embed the
input record, the five rules, the scoring loop and the display sort as
Lean definitions translated from the source, and prove the specified
properties about them.
-/

namespace AICAP

/-- Artifact flags of the declared system (`system_data["artifacts"]` in the source). -/
structure Artifacts where
  model_card : Bool
  data_sheet : Bool
  pia : Bool
  bias_eval : Bool
  oversight_plan : Bool
  deriving DecidableEq

/-- Monitoring flags of the declared system (`system_data["monitoring"]` in the source). -/
structure Monitoring where
  logs_enabled : Bool
  drift_monitoring : Bool
  bias_monitoring : Bool
  deriving DecidableEq

/-- The flat input record assembled from the form fields (`system_data` in the source).
`risk_level` is kept as a raw string, matching the source, where malformed values
simply fail to compare equal to `"high"`. -/
structure SystemDeclaration where
  name : String
  owner : String
  use_case : String
  rights_impacting : Bool
  safety_impacting : Bool
  risk_level : String
  artifacts : Artifacts
  monitoring : Monitoring
  deriving DecidableEq

/-- A single audit finding, exactly the dictionary appended by `add_finding`. -/
structure Finding where
  rule : String
  severity : String
  message : String
  remediation : String
  deriving DecidableEq

/-- The value returned by `run_audit`. -/
structure AuditResult where
  status : String
  score : Int
  findings : List Finding
  generated_at : String
  deriving DecidableEq

/-- Finding emitted by rule 1 (`DOC-PIA-001`, lines 95-102 of `src/app.py`). -/
def piaFinding : Finding :=
  { rule := "DOC-PIA-001"
    severity := "HIGH"
    message := "Rights-impacting system is missing a Privacy Impact Assessment (PIA)."
    remediation := "Conduct and document a Privacy Impact Assessment, then store it as an official artifact and link it in your inventory." }

/-- Finding emitted by rule 2 (`GOV-OVERSIGHT-003`, lines 104-112 of `src/app.py`). -/
def oversightFinding : Finding :=
  { rule := "GOV-OVERSIGHT-003"
    severity := "HIGH"
    message := "High-risk system has no documented human oversight & escalation plan."
    remediation := "Define who reviews outputs, when humans must intervene, and how escalation works. Document this as a formal oversight plan." }

/-- Finding emitted by rule 3 (`MON-BIAS-004`, lines 114-122 of `src/app.py`). -/
def biasMonFinding : Finding :=
  { rule := "MON-BIAS-004"
    severity := "MEDIUM"
    message := "High-risk system does not have ongoing bias / outcome monitoring."
    remediation := "Set up periodic or continuous bias checks on key segments and protected groups, with thresholds and alerts when metrics drift." }

/-- Finding emitted by rule 4 (`MON-LOG-005`, lines 124-132 of `src/app.py`). -/
def logFinding : Finding :=
  { rule := "MON-LOG-005"
    severity := "MEDIUM"
    message := "Logging is disabled; decisions and usage are not auditable."
    remediation := "Enable detailed logging for inputs, outputs, decisions, and key configuration changes, and retain them per policy." }

/-- Finding emitted by rule 5 (`MON-DRIFT-006`, lines 134-142 of `src/app.py`). -/
def driftFinding : Finding :=
  { rule := "MON-DRIFT-006"
    severity := "LOW"
    message := "Model drift is not being monitored."
    remediation := "Implement drift monitoring on key performance metrics and data distributions. Review on a regular cadence." }

/-- The audit engine, translated statement by statement from `run_audit`
(lines 61-158 of `src/app.py`).  The running `(score, findings)` pair mirrors the
`nonlocal score` / `findings.append` state of `add_finding`; each rule either
subtracts its penalty and appends its finding, or leaves the pair unchanged.
The wall-clock reading `datetime.utcnow().isoformat()` is passed in as `now`. -/
def runAudit (system_data : SystemDeclaration) (now : String) : AuditResult :=
  let acc0 : Int × List Finding := (100, [])
  let acc1 :=
    if system_data.rights_impacting && !system_data.artifacts.pia then
      (acc0.1 - 25, acc0.2 ++ [piaFinding])
    else acc0
  let acc2 :=
    if system_data.risk_level == "high" && !system_data.artifacts.oversight_plan then
      (acc1.1 - 25, acc1.2 ++ [oversightFinding])
    else acc1
  let acc3 :=
    if system_data.risk_level == "high" && !system_data.monitoring.bias_monitoring then
      (acc2.1 - 15, acc2.2 ++ [biasMonFinding])
    else acc2
  let acc4 :=
    if !system_data.monitoring.logs_enabled then
      (acc3.1 - 10, acc3.2 ++ [logFinding])
    else acc3
  let acc5 :=
    if !system_data.monitoring.drift_monitoring then
      (acc4.1 - 5, acc4.2 ++ [driftFinding])
    else acc4
  let score := max 0 acc5.1
  let findings := acc5.2
  let status :=
    if 85 ≤ score && ((findings.filter fun f => f.severity == "HIGH").length == 0) then
      "PASS"
    else if 60 ≤ score then
      "CONDITIONAL"
    else
      "FAIL"
  { status := status, score := score, findings := findings, generated_at := now ++ "Z" }

/-- Identifier for the five audit rules, in the order the source evaluates them. -/
inductive Rule where
  | piaRule
  | oversightRule
  | biasMonRule
  | logRule
  | driftRule
  deriving DecidableEq, Fintype

/-- The trigger condition of each rule, read off the five `if` guards of `run_audit`. -/
def triggers (d : SystemDeclaration) : Rule → Bool
  | .piaRule => d.rights_impacting && !d.artifacts.pia
  | .oversightRule => d.risk_level == "high" && !d.artifacts.oversight_plan
  | .biasMonRule => d.risk_level == "high" && !d.monitoring.bias_monitoring
  | .logRule => !d.monitoring.logs_enabled
  | .driftRule => !d.monitoring.drift_monitoring

/-- The penalty each rule subtracts from the score. -/
def rulePenalty : Rule → Int
  | .piaRule => 25
  | .oversightRule => 25
  | .biasMonRule => 15
  | .logRule => 10
  | .driftRule => 5

/-- The finding each rule appends. -/
def ruleFinding : Rule → Finding
  | .piaRule => piaFinding
  | .oversightRule => oversightFinding
  | .biasMonRule => biasMonFinding
  | .logRule => logFinding
  | .driftRule => driftFinding

/-- All five rules in evaluation order. -/
def ruleList : List Rule :=
  [.piaRule, .oversightRule, .biasMonRule, .logRule, .driftRule]

/-- Total penalty of the rules a declaration triggers. -/
def penaltySum (d : SystemDeclaration) : Int :=
  (ruleList.map fun r => if triggers d r then rulePenalty r else 0).sum

/-- Modelled from the spec: the simplified status derivation mentioned in the
spec as the second variant of the audit function, which is not present under
`src/` — it gates PASS on score alone, with no HIGH-severity override
("PASS if score is at least 85; CONDITIONAL if at least 60; else FAIL"). -/
def simpleStatus (score : Int) : String :=
  if 85 ≤ score then "PASS" else if 60 ≤ score then "CONDITIONAL" else "FAIL"

/-- Severity rank used by the display sort (`severity_rank` at line 207 of
`src/app.py`): HIGH is 0, MEDIUM is 1, LOW is 2, anything else 3. -/
def severityRank (s : String) : Nat :=
  if s == "HIGH" then 0 else if s == "MEDIUM" then 1 else if s == "LOW" then 2 else 3

/-- One step of the stable sort: place `x` before the first element of
equal or larger severity rank, preserving the order of everything else. -/
def insertBySeverity (x : Finding) : List Finding → List Finding
  | [] => [x]
  | y :: ys =>
    if severityRank x.severity ≤ severityRank y.severity then x :: y :: ys
    else y :: insertBySeverity x ys

/-- The display sort of `sorted_findings` (lines 206-211 of `src/app.py`):
Python's `sorted` with key `severity_rank` is a stable sort by rank, embedded
here as stable insertion sort. -/
def sortFindings : List Finding → List Finding
  | [] => []
  | x :: xs => insertBySeverity x (sortFindings xs)

/-- A high-risk, rights-impacting declaration with every artifact and
monitoring flag false: it violates all five rules. -/
def sampleHigh : SystemDeclaration :=
  { name := "Benefits Eligibility Assistant"
    owner := "AFLCMC Benefits Modernization PMO"
    use_case := "Helps case workers analyze benefits eligibility inquiries."
    rights_impacting := true
    safety_impacting := false
    risk_level := "high"
    artifacts :=
      { model_card := false, data_sheet := false, pia := false
        bias_eval := false, oversight_plan := false }
    monitoring :=
      { logs_enabled := false, drift_monitoring := false, bias_monitoring := false } }

/-- A low-risk declaration with every artifact and monitoring flag true:
it violates no rule. -/
def sampleLow : SystemDeclaration :=
  { name := "Benefits Eligibility Assistant"
    owner := "AFLCMC Benefits Modernization PMO"
    use_case := "Helps case workers analyze benefits eligibility inquiries."
    rights_impacting := true
    safety_impacting := false
    risk_level := "low"
    artifacts :=
      { model_card := true, data_sheet := true, pia := true
        bias_eval := true, oversight_plan := true }
    monitoring :=
      { logs_enabled := true, drift_monitoring := true, bias_monitoring := true } }

/-! ## Bridging lemmas: the scoring loop in terms of the rule table -/

/-- The score returned by the engine is 100 minus the penalties of the
triggered rules, floored at 0. -/
theorem runAudit_score (d : SystemDeclaration) (now : String) :
    (runAudit d now).score = max 0 (100 - penaltySum d) := by
  simp only [runAudit, penaltySum, ruleList, List.map, List.sum]
  cases h1 : (d.rights_impacting && !d.artifacts.pia) <;>
  cases h2 : (d.risk_level == "high" && !d.artifacts.oversight_plan) <;>
  cases h3 : (d.risk_level == "high" && !d.monitoring.bias_monitoring) <;>
  cases h4 : (!d.monitoring.logs_enabled) <;>
  cases h5 : (!d.monitoring.drift_monitoring) <;>
  simp [triggers, h1, h2, h3, h4, h5, rulePenalty]

/-- The findings list returned by the engine is exactly the findings of the
triggered rules, in evaluation order. -/
theorem runAudit_findings (d : SystemDeclaration) (now : String) :
    (runAudit d now).findings = (ruleList.filter (triggers d)).map ruleFinding := by
  simp only [runAudit, ruleList]
  cases h1 : (d.rights_impacting && !d.artifacts.pia) <;>
  cases h2 : (d.risk_level == "high" && !d.artifacts.oversight_plan) <;>
  cases h3 : (d.risk_level == "high" && !d.monitoring.bias_monitoring) <;>
  cases h4 : (!d.monitoring.logs_enabled) <;>
  cases h5 : (!d.monitoring.drift_monitoring) <;>
  simp [triggers, h1, h2, h3, h4, h5, ruleFinding]

/-- The penalty sum written out as the five guard conditions of the source. -/
theorem penaltySum_explicit (d : SystemDeclaration) :
    penaltySum d =
      (if d.rights_impacting && !d.artifacts.pia then (25 : Int) else 0) +
      ((if d.risk_level == "high" && !d.artifacts.oversight_plan then (25 : Int) else 0) +
      ((if d.risk_level == "high" && !d.monitoring.bias_monitoring then (15 : Int) else 0) +
      ((if !d.monitoring.logs_enabled then (10 : Int) else 0) +
      (if !d.monitoring.drift_monitoring then (5 : Int) else 0)))) := by
  simp [penaltySum, ruleList, triggers, rulePenalty]

/-- Penalties are never negative, so the sum is not either. -/
theorem penaltySum_nonneg (d : SystemDeclaration) : 0 ≤ penaltySum d := by
  rw [penaltySum_explicit]
  split_ifs <;> norm_num

/-- Shared helper: on every declaration the status computed by the engine
agrees with the simplified derivation on score alone, because any HIGH
finding costs 25 points and therefore forces the score below 85. -/
theorem status_agrees_with_simple (d : SystemDeclaration) (now : String) :
    (runAudit d now).status = simpleStatus (runAudit d now).score := by
  simp only [runAudit, simpleStatus]
  cases h1 : (d.rights_impacting && !d.artifacts.pia) <;>
  cases h2 : (d.risk_level == "high" && !d.artifacts.oversight_plan) <;>
  cases h3 : (d.risk_level == "high" && !d.monitoring.bias_monitoring) <;>
  cases h4 : (!d.monitoring.logs_enabled) <;>
  cases h5 : (!d.monitoring.drift_monitoring) <;>
  simp [h1, h2, h3, h4, h5, piaFinding, oversightFinding, biasMonFinding, logFinding,
    driftFinding]

/-! ## Helper lemmas for the display sort -/

/-- Membership is preserved by `insertBySeverity`. -/
theorem mem_insertBySeverity (x b : Finding) (l : List Finding) :
    b ∈ insertBySeverity x l ↔ b = x ∨ b ∈ l := by
  induction l with
  | nil => simp [insertBySeverity]
  | cons y ys ih =>
    rw [insertBySeverity]
    by_cases hxy : severityRank x.severity ≤ severityRank y.severity
    · rw [if_pos hxy]; simp
    · rw [if_neg hxy]
      simp [ih]
      tauto

/-- Inserting into a rank-sorted list keeps it rank-sorted. -/
theorem sorted_insertBySeverity (x : Finding) (l : List Finding)
    (hl : List.Sorted (fun a b => severityRank a.severity ≤ severityRank b.severity) l) :
    List.Sorted (fun a b => severityRank a.severity ≤ severityRank b.severity)
      (insertBySeverity x l) := by
  induction l with
  | nil => simp [insertBySeverity]
  | cons y ys ih =>
    rw [insertBySeverity]
    rcases List.sorted_cons.1 hl with ⟨hy, hys⟩
    by_cases hxy : severityRank x.severity ≤ severityRank y.severity
    · rw [if_pos hxy]
      refine List.sorted_cons.2 ⟨?_, hl⟩
      intro b hb
      rcases List.mem_cons.1 hb with hb | hb
      · exact hb ▸ hxy
      · exact le_trans hxy (hy _ hb)
    · rw [if_neg hxy]
      refine List.sorted_cons.2 ⟨?_, ih hys⟩
      intro b hb
      rcases (mem_insertBySeverity x b ys).1 hb with hb | hb
      · exact hb ▸ le_of_not_le hxy
      · exact hy _ hb

/-- The sort output is rank-sorted. -/
theorem sorted_sortFindings (l : List Finding) :
    List.Sorted (fun a b => severityRank a.severity ≤ severityRank b.severity)
      (sortFindings l) := by
  induction l with
  | nil => simp [sortFindings]
  | cons x xs ih => exact sorted_insertBySeverity x (sortFindings xs) ih

/-- Restricted to any one severity rank, insertion prepends the new element
when it carries that rank (it passes only elements of strictly smaller rank)
and otherwise leaves the restriction unchanged. -/
theorem filter_insertBySeverity (x : Finding) (l : List Finding) (k : Nat) :
    (insertBySeverity x l).filter (fun f => severityRank f.severity == k) =
      if severityRank x.severity = k then
        x :: l.filter (fun f => severityRank f.severity == k)
      else l.filter (fun f => severityRank f.severity == k) := by
  induction l with
  | nil => simp [insertBySeverity, List.filter_cons, List.filter_nil, beq_iff_eq]
  | cons y ys ih =>
    rw [insertBySeverity]
    by_cases hxy : severityRank x.severity ≤ severityRank y.severity
    · rw [if_pos hxy]
      by_cases hxk : severityRank x.severity = k
      · simp [List.filter_cons, beq_iff_eq, hxk]
      · simp [List.filter_cons, beq_iff_eq, hxk]
    · rw [if_neg hxy]
      by_cases hxk : severityRank x.severity = k
      · have hyk : ¬ severityRank y.severity = k := by omega
        simp [List.filter_cons, beq_iff_eq, hxk, hyk, ih]
      · simp [List.filter_cons, beq_iff_eq, hxk, ih]

/-- Stability: restricted to any one severity rank, the sort is the identity. -/
theorem filter_sortFindings (l : List Finding) (k : Nat) :
    (sortFindings l).filter (fun f => severityRank f.severity == k) =
      l.filter (fun f => severityRank f.severity == k) := by
  induction l with
  | nil => rfl
  | cons x xs ih =>
    rw [sortFindings, filter_insertBySeverity]
    by_cases hxk : severityRank x.severity = k
    · simp [List.filter_cons, beq_iff_eq, hxk, ih]
    · simp [List.filter_cons, beq_iff_eq, hxk, ih]

/-! ## The claims -/

/-- C1: for every SystemDeclaration, `run_audit` assigns status PASS if the
score is at least 85 and there are zero HIGH-severity findings; otherwise
CONDITIONAL if the score is at least 60; otherwise FAIL. -/
theorem status_derivation (d : SystemDeclaration) (now : String) :
    (runAudit d now).status =
      (if 85 ≤ (runAudit d now).score ∧ ∀ f ∈ (runAudit d now).findings, f.severity ≠ "HIGH"
       then "PASS"
       else if 60 ≤ (runAudit d now).score then "CONDITIONAL" else "FAIL") := by
  simp only [runAudit]
  cases h1 : (d.rights_impacting && !d.artifacts.pia) <;>
  cases h2 : (d.risk_level == "high" && !d.artifacts.oversight_plan) <;>
  cases h3 : (d.risk_level == "high" && !d.monitoring.bias_monitoring) <;>
  cases h4 : (!d.monitoring.logs_enabled) <;>
  cases h5 : (!d.monitoring.drift_monitoring) <;>
  simp [h1, h2, h3, h4, h5, piaFinding, oversightFinding, biasMonFinding, logFinding,
    driftFinding]

/-- C2 counterexample: contrary to the claim, there is no SystemDeclaration on
which the two candidate status derivations — score at least 85 with zero HIGH
findings, versus score at least 85 alone — assign different statuses. -/
theorem no_declaration_distinguishes_variants :
    ¬ ∃ (d : SystemDeclaration) (now : String),
        (runAudit d now).status ≠ simpleStatus (runAudit d now).score := by
  rintro ⟨d, now, hne⟩
  exact hne (status_agrees_with_simple d now)

/-- C2 (amended): the source contains a single audit function, whose status
derivation gates PASS on score at least 85 and zero HIGH findings; the
simplified derivation on score alone assigns the same status to every
SystemDeclaration, since any HIGH finding carries penalty 25 and so caps the
score at 75. -/
theorem status_variants_agree (d : SystemDeclaration) (now : String) :
    (runAudit d now).status = simpleStatus (runAudit d now).score :=
  status_agrees_with_simple d now

/-- C3: for every SystemDeclaration the score equals 100 minus the sum of the
penalties of the triggered rules, floored at 0, and lies in [0, 100]. -/
theorem score_formula_and_bounds (d : SystemDeclaration) (now : String) :
    (runAudit d now).score = max 0 (100 - penaltySum d) ∧
    0 ≤ (runAudit d now).score ∧ (runAudit d now).score ≤ 100 := by
  have h := runAudit_score d now
  have h0 := penaltySum_nonneg d
  exact ⟨h, by omega, by omega⟩

/-- C4: a high-risk, rights-impacting declaration with every artifact and
monitoring flag false triggers all five rules, scoring
max(0, 100-25-25-15-10-5) = 20 with status FAIL. -/
theorem all_rules_fail_case (n o u : String) (sf : Bool) (now : String) :
    (runAudit
      { name := n, owner := o, use_case := u, rights_impacting := true
        safety_impacting := sf, risk_level := "high"
        artifacts :=
          { model_card := false, data_sheet := false, pia := false
            bias_eval := false, oversight_plan := false }
        monitoring :=
          { logs_enabled := false, drift_monitoring := false
            bias_monitoring := false } } now).findings.map (fun f => f.rule) =
        ["DOC-PIA-001", "GOV-OVERSIGHT-003", "MON-BIAS-004", "MON-LOG-005",
          "MON-DRIFT-006"] ∧
    (runAudit
      { name := n, owner := o, use_case := u, rights_impacting := true
        safety_impacting := sf, risk_level := "high"
        artifacts :=
          { model_card := false, data_sheet := false, pia := false
            bias_eval := false, oversight_plan := false }
        monitoring :=
          { logs_enabled := false, drift_monitoring := false
            bias_monitoring := false } } now).score = max 0 (100 - 25 - 25 - 15 - 10 - 5) ∧
    (runAudit
      { name := n, owner := o, use_case := u, rights_impacting := true
        safety_impacting := sf, risk_level := "high"
        artifacts :=
          { model_card := false, data_sheet := false, pia := false
            bias_eval := false, oversight_plan := false }
        monitoring :=
          { logs_enabled := false, drift_monitoring := false
            bias_monitoring := false } } now).status = "FAIL" :=
  ⟨rfl, rfl, rfl⟩

/-- C5: for every SystemDeclaration that is rights-impacting and lacks a PIA,
the engine emits the `DOC-PIA-001` HIGH finding, and turning only the PIA flag
on raises the score by exactly 25. -/
theorem pia_rule_finding_and_penalty (d : SystemDeclaration) (now : String)
    (h1 : d.rights_impacting = true) (h2 : d.artifacts.pia = false) :
    piaFinding ∈ (runAudit d now).findings ∧
    piaFinding.severity = "HIGH" ∧ piaFinding.rule = "DOC-PIA-001" ∧
    (runAudit { d with artifacts := { d.artifacts with pia := true } } now).score
      = (runAudit d now).score + 25 := by
  refine ⟨?_, rfl, rfl, ?_⟩
  · rw [runAudit_findings]
    have ht : triggers d Rule.piaRule = true := by simp [triggers, h1, h2]
    exact List.mem_map_of_mem ruleFinding (List.mem_filter.2 ⟨by simp [ruleList], ht⟩)
  · rw [runAudit_score, runAudit_score, penaltySum_explicit, penaltySum_explicit]
    simp only [h1, h2]
    simp
    split_ifs <;> omega

/-- C5 witness: instantiated at the all-violations sample declaration. -/
theorem pia_rule_finding_and_penalty_witness :
    piaFinding ∈ (runAudit sampleHigh "2026-10-12T00:00:00").findings ∧
    piaFinding.severity = "HIGH" ∧ piaFinding.rule = "DOC-PIA-001" ∧
    (runAudit { sampleHigh with artifacts := { sampleHigh.artifacts with pia := true } }
        "2026-10-12T00:00:00").score
      = (runAudit sampleHigh "2026-10-12T00:00:00").score + 25 :=
  pia_rule_finding_and_penalty sampleHigh "2026-10-12T00:00:00" rfl rfl

/-- C6: for every SystemDeclaration whose risk level is not the string "high"
(including malformed values), neither the oversight-plan rule nor the
bias-monitoring rule triggers, and no finding with their rule identifiers
appears, regardless of the `oversight_plan` and `bias_monitoring` flags. -/
theorem nonhigh_no_oversight_bias (d : SystemDeclaration) (now : String)
    (h : d.risk_level ≠ "high") :
    triggers d Rule.oversightRule = false ∧ triggers d Rule.biasMonRule = false ∧
    ∀ f ∈ (runAudit d now).findings,
      f.rule ≠ "GOV-OVERSIGHT-003" ∧ f.rule ≠ "MON-BIAS-004" := by
  have hb : (d.risk_level == "high") = false := by simp [h]
  refine ⟨by simp [triggers, hb], by simp [triggers, hb], ?_⟩
  rw [runAudit_findings]
  intro f hf
  obtain ⟨r, hr, rfl⟩ := List.mem_map.1 hf
  have htr := (List.mem_filter.1 hr).2
  cases r <;> simp_all [triggers, ruleFinding, piaFinding, oversightFinding, biasMonFinding,
    logFinding, driftFinding]

/-- C6 witness: instantiated at the fully compliant low-risk sample, whose
risk level "low" is not "high". -/
theorem nonhigh_no_oversight_bias_witness :
    triggers sampleLow Rule.oversightRule = false ∧
    triggers sampleLow Rule.biasMonRule = false ∧
    ∀ f ∈ (runAudit sampleLow "2026-10-12T00:00:00").findings,
      f.rule ≠ "GOV-OVERSIGHT-003" ∧ f.rule ≠ "MON-BIAS-004" :=
  nonhigh_no_oversight_bias sampleLow "2026-10-12T00:00:00" (by decide)

/-- C7: the score is monotonically non-increasing in the set of triggered
rules: if every rule triggered by A is also triggered by B, then B scores at
most as much as A. -/
theorem score_monotone_in_triggers (A B : SystemDeclaration) (na nb : String)
    (h : ∀ r, triggers A r = true → triggers B r = true) :
    (runAudit B nb).score ≤ (runAudit A na).score := by
  rw [runAudit_score, runAudit_score]
  have hs : penaltySum A ≤ penaltySum B := by
    unfold penaltySum
    refine List.sum_le_sum ?_
    intro r hr
    by_cases ht : triggers A r = true
    · rw [ht, h r ht]
    · have ht' : triggers A r = false := by revert ht; cases triggers A r <;> simp
      rw [ht']
      cases hB : triggers B r <;> simp <;> cases r <;> norm_num [rulePenalty]
  omega

/-- C7 witness: the compliant low-risk sample triggers a subset (in fact none)
of the rules the all-violations sample triggers, and scores no less. -/
theorem score_monotone_in_triggers_witness :
    (runAudit sampleHigh "2026-10-12T00:00:00").score
      ≤ (runAudit sampleLow "2026-10-12T00:00:00").score :=
  score_monotone_in_triggers sampleLow sampleHigh "2026-10-12T00:00:00"
    "2026-10-12T00:00:00" (by decide)

/-- C8: for every SystemDeclaration the score is 100 exactly when the findings
list is empty. -/
theorem score_hundred_iff_no_findings (d : SystemDeclaration) (now : String) :
    (runAudit d now).score = 100 ↔ (runAudit d now).findings = [] := by
  simp only [runAudit]
  cases h1 : (d.rights_impacting && !d.artifacts.pia) <;>
  cases h2 : (d.risk_level == "high" && !d.artifacts.oversight_plan) <;>
  cases h3 : (d.risk_level == "high" && !d.monitoring.bias_monitoring) <;>
  cases h4 : (!d.monitoring.logs_enabled) <;>
  cases h5 : (!d.monitoring.drift_monitoring) <;>
  simp [h1, h2, h3, h4, h5]

/-- C9: sorting any findings list for display yields a list non-decreasing in
severity rank (HIGH 0, MEDIUM 1, LOW 2), and within each rank the original
evaluation order is kept: the sorted list restricted to any one rank equals
the original list restricted to that rank. -/
theorem sortFindings_sorted_and_stable (l : List Finding) :
    List.Sorted (fun a b => severityRank a.severity ≤ severityRank b.severity)
      (sortFindings l) ∧
    ∀ k : Nat,
      (sortFindings l).filter (fun f => severityRank f.severity == k) =
        l.filter (fun f => severityRank f.severity == k) :=
  ⟨sorted_sortFindings l, filter_sortFindings l⟩

/-- C10: the audit engine is deterministic in the declaration: two runs on the
same SystemDeclaration, at possibly different wall-clock instants, return the
same status, score and findings; only `generated_at` depends on the clock. -/
theorem audit_deterministic (d : SystemDeclaration) (t1 t2 : String) :
    (runAudit d t1).status = (runAudit d t2).status ∧
    (runAudit d t1).score = (runAudit d t2).score ∧
    (runAudit d t1).findings = (runAudit d t2).findings :=
  ⟨rfl, rfl, rfl⟩

end AICAP
